import Mathlib

/-!
Shallow embedding of the nixary editor (src/main.rs): the `Editor` state
record, the `Message` set, the pure part of `Editor::update` (returning the
new state plus the pending async operation it launches), the constructor
`Editor::new`, the async file operations `load_file`, `browse_file` and
`save_file` (made pure by passing the outside world — dialog outcomes and a
file system — explicitly), and the status-line choice made by `Editor::view`.
-/

namespace Nixary

/-- File paths (`std::path::PathBuf`), modelled as strings. -/
abbrev Path := String

/-- `std::io::ErrorKind`, modelled as a numeric code. -/
abbrev IOErrorKind := Nat

/-- The `Error` enum of main.rs: `DialogClosed` and `IOFailed(io::ErrorKind)`. -/
inductive Error where
  | DialogClosed : Error
  | IOFailed : IOErrorKind → Error
deriving DecidableEq, Repr

/-- The `text_editor::Content` buffer, modelled by the text it holds. -/
structure Content where
  text : String
deriving DecidableEq, Repr

/-- `text_editor::Content::new()`: an empty buffer. -/
def Content.new : Content := ⟨""⟩

/-- `text_editor::Content::with_text(s)`: a buffer holding exactly `s`. -/
def Content.with_text (s : String) : Content := ⟨s⟩

/-- A `text_editor::Action` edit delta, modelled by its effect on the buffer. -/
abbrev Action := Content → Content

/-- `Content::perform(action)`: apply the edit delta to the buffer. -/
def Content.perform (c : Content) (a : Action) : Content := a c

/-- The `Message` enum of main.rs. -/
inductive Message where
  | New : Message
  | Edit : Action → Message
  | FileOpened : Except Error (Path × String) → Message
  | FileSaved : Except Error Path → Message
  | Open : Message
  | Save : Message

/-- The `Editor` application state: current path, text buffer, last error. -/
structure Editor where
  path : Option Path
  content : Content
  error : Option Error
deriving DecidableEq, Repr

/-- The async operation a single `update` step may launch, as passed to
`Command::perform`: a plain load (startup), a pick-file dialog plus read
(`browse_file`), or a save-dialog-if-no-path plus write (`save_file`). -/
inductive PendingOp where
  | loadOp : Path → PendingOp
  | browseOp : PendingOp
  | saveOp : Option Path → String → PendingOp
deriving DecidableEq, Repr

/-- The outside world the async operations interact with: the outcome of the
native save-file and pick-file dialogs (`none` = dismissed) and the file
system (`tokio::fs::read_to_string` / `tokio::fs::write`). -/
structure World where
  saveDialog : Option Path
  pickDialog : Option Path
  readFile : Path → Except IOErrorKind String
  writeFile : Path → String → Except IOErrorKind Unit

/-- `load_file`: read the file to a string, tagging failures `IOFailed`. -/
def load_file (w : World) (p : Path) : Except Error (Path × String) :=
  match w.readFile p with
  | Except.error k => Except.error (Error.IOFailed k)
  | Except.ok s => Except.ok (p, s)

/-- `browse_file`: pick-file dialog (dismissal is `DialogClosed`), then load. -/
def browse_file (w : World) : Except Error (Path × String) :=
  match w.pickDialog with
  | none => Except.error Error.DialogClosed
  | some p => load_file w p

/-- `save_file`: resolve the path (save-file dialog when none is known,
dismissal is `DialogClosed`), then write, tagging write failures `IOFailed`,
and return the resolved path. -/
def save_file (w : World) (path : Option Path) (content_text : String) :
    Except Error Path :=
  match (match path with
         | some p => Except.ok p
         | none =>
           match w.saveDialog with
           | none => Except.error Error.DialogClosed
           | some p => Except.ok p : Except Error Path) with
  | Except.error e => Except.error e
  | Except.ok p =>
    match w.writeFile p content_text with
    | Except.error k => Except.error (Error.IOFailed k)
    | Except.ok _ => Except.ok p

/-- `default_file()`: `CARGO_MANIFEST_DIR` joined with `src/main.rs`. The
compile-time `env!("CARGO_MANIFEST_DIR")` value is passed as a parameter. -/
def default_file (manifestDir : String) : Path := manifestDir ++ "/src/main.rs"

/-- Running a pending operation against the world delivers its result wrapped
in the message constructor `Editor::update` paired it with via
`Command::perform`: loads and browses arrive as `FileOpened`, saves as
`FileSaved`. -/
def PendingOp.run (w : World) : PendingOp → Message
  | PendingOp.loadOp p => Message.FileOpened (load_file w p)
  | PendingOp.browseOp => Message.FileOpened (browse_file w)
  | PendingOp.saveOp path ct => Message.FileSaved (save_file w path ct)

/-- `Editor::new`: path `None`, buffer pre-filled with the program's own
source (`include_str!("main.rs")`, a compile-time input passed as the
parameter `includedMainRs`), no error, and one startup load of
`default_file()` whose result arrives as `FileOpened`. -/
def Editor.new (includedMainRs : String) (manifestDir : String) :
    Editor × Option PendingOp :=
  (⟨none, Content.with_text includedMainRs, none⟩,
   some (PendingOp.loadOp (default_file manifestDir)))

/-- The pure part of `Editor::update`: the new state, plus the async
operation handed to `Command::perform` (`none` models `Command::none()`). -/
def Editor.update (s : Editor) (m : Message) : Editor × Option PendingOp :=
  match m with
  | Message.Edit a =>
    ({ s with content := s.content.perform a, error := none }, none)
  | Message.Open => (s, some PendingOp.browseOp)
  | Message.New =>
    ({ s with path := none, content := Content.new }, none)
  | Message.Save =>
    (s, some (PendingOp.saveOp s.path s.content.text))
  | Message.FileOpened (Except.ok (p, c)) =>
    ({ s with path := some p, content := Content.with_text c }, none)
  | Message.FileOpened (Except.error e) =>
    ({ s with error := some e }, none)
  | Message.FileSaved (Except.ok p) =>
    ({ s with path := some p }, none)
  | Message.FileSaved (Except.error e) =>
    ({ s with error := some e }, none)

/-- What the status widget of `Editor::view`'s status bar displays. -/
inductive StatusDisplay where
  | errorText : IOErrorKind → StatusDisplay
  | pathText : Path → StatusDisplay
  | newFileText : StatusDisplay
deriving DecidableEq, Repr

/-- The status choice in `Editor::view`: an `IOFailed` error is rendered;
otherwise (no error, or a `DialogClosed` error) the current path, or the
label "New File" when no path is known. -/
def status_bar_status (s : Editor) : StatusDisplay :=
  match s.error with
  | some (Error.IOFailed k) => StatusDisplay.errorText k
  | _ =>
    match s.path with
    | some p => StatusDisplay.pathText p
    | none => StatusDisplay.newFileText

/-! Concrete states and worlds used by counterexamples and witnesses. -/

/-- A state carrying a recorded `IOFailed` error. -/
def sIOErr : Editor := ⟨some "/tmp/a", Content.with_text "hello", some (Error.IOFailed 5)⟩

/-- A fresh state: no path, empty buffer, no error. -/
def sFresh : Editor := ⟨none, Content.new, none⟩

/-- A state carrying a recorded `DialogClosed` error. -/
def sDlgErr : Editor := ⟨none, Content.new, some Error.DialogClosed⟩

/-- A world whose save-file dialog is dismissed. -/
def wDismiss : World :=
  ⟨none, none, fun _ => Except.error 2, fun _ _ => Except.ok ()⟩

/-! Claims. -/

/-- C1 counterexample: the claim says the `New` transition leaves the last
error `None`, but on a state whose error is `Some(IOFailed 5)` the `New`
transition keeps that error: `Editor::update` never touches `self.error` in
the `Message::New` arm. -/
theorem c1_new_keeps_error :
    (Editor.update sIOErr Message.New).1.error = some (Error.IOFailed 5) ∧
    (Editor.update sIOErr Message.New).1.error ≠ none := by
  constructor
  · rfl
  · decide

/-- C1 (amended): for every state, `New` clears the path and resets the
buffer to the empty buffer, launches no async operation, and leaves the last
error unchanged. -/
theorem new_clears_path_and_buffer (s : Editor) :
    (Editor.update s Message.New).1.path = none ∧
    (Editor.update s Message.New).1.content = Content.new ∧
    (Editor.update s Message.New).1.content.text = "" ∧
    (Editor.update s Message.New).1.error = s.error ∧
    (Editor.update s Message.New).2 = none := by
  refine ⟨rfl, rfl, rfl, rfl, rfl⟩

/-- C2 counterexample: the claim says an arriving error of either kind is
displayed in the status line; but after `FileOpened(Err(DialogClosed))`
arrives at a fresh state, the status line shows the "New File" label, not the
error. -/
theorem c2_dialog_error_not_displayed :
    status_bar_status
        ((Editor.update sFresh (Message.FileOpened (Except.error Error.DialogClosed))).1)
      = StatusDisplay.newFileText := rfl

/-- C2 (amended): only `IOFailed` errors are surfaced in the status line;
when the last error is `DialogClosed` the status line shows the current path,
or the "New File" label when no path is known, exactly as when there is no
error. -/
theorem status_surfaces_only_io_failures (s : Editor) :
    (∀ k, s.error = some (Error.IOFailed k) →
      status_bar_status s = StatusDisplay.errorText k) ∧
    (s.error = some Error.DialogClosed →
      status_bar_status s =
        (match s.path with
         | some p => StatusDisplay.pathText p
         | none => StatusDisplay.newFileText)) := by
  constructor
  · intro k hk
    simp [status_bar_status, hk]
  · intro hd
    simp [status_bar_status, hd]

/-- C2 witness: on a concrete state with an `IOFailed 5` error, the status
line renders that error. -/
theorem status_surfaces_only_io_failures_witness :
    status_bar_status sIOErr = StatusDisplay.errorText 5 :=
  (status_surfaces_only_io_failures sIOErr).1 5 rfl

/-- C3: a failed async result (`FileOpened(Err e)` or `FileSaved(Err e)`)
leaves the current path and the buffer unchanged and launches nothing; only
the last-error field changes, to that error. -/
theorem failed_results_only_set_error (s : Editor) (e : Error) :
    ((Editor.update s (Message.FileOpened (Except.error e))).1.path = s.path ∧
     (Editor.update s (Message.FileOpened (Except.error e))).1.content = s.content ∧
     (Editor.update s (Message.FileOpened (Except.error e))).1.error = some e ∧
     (Editor.update s (Message.FileOpened (Except.error e))).2 = none) ∧
    ((Editor.update s (Message.FileSaved (Except.error e))).1.path = s.path ∧
     (Editor.update s (Message.FileSaved (Except.error e))).1.content = s.content ∧
     (Editor.update s (Message.FileSaved (Except.error e))).1.error = some e ∧
     (Editor.update s (Message.FileSaved (Except.error e))).2 = none) :=
  ⟨⟨rfl, rfl, rfl, rfl⟩, ⟨rfl, rfl, rfl, rfl⟩⟩

/-- C4: `save_file` with a known path never returns `DialogClosed` — it
returns `Ok` of that very path when the write succeeds and `IOFailed` of the
write's kind otherwise; with no path it returns `DialogClosed` exactly when
the save dialog is dismissed, and any success carries the path the dialog
resolved. -/
theorem save_file_dialog_spec (w : World) (ct : String) :
    (∀ p, save_file w (some p) ct ≠ Except.error Error.DialogClosed) ∧
    (∀ p, (w.writeFile p ct = Except.ok () ∧ save_file w (some p) ct = Except.ok p) ∨
      (∃ k, w.writeFile p ct = Except.error k ∧
        save_file w (some p) ct = Except.error (Error.IOFailed k))) ∧
    (save_file w none ct = Except.error Error.DialogClosed ↔ w.saveDialog = none) ∧
    (∀ q, save_file w none ct = Except.ok q → w.saveDialog = some q) := by
  refine ⟨?_, ?_, ?_, ?_⟩
  · intro p h
    simp only [save_file] at h
    rcases hw : w.writeFile p ct with k | u <;> simp [hw] at h
  · intro p
    rcases hw : w.writeFile p ct with k | u
    · exact Or.inr ⟨k, rfl, by simp [save_file, hw]⟩
    · exact Or.inl ⟨rfl, by simp [save_file, hw]⟩
  · constructor
    · intro h
      rcases hd : w.saveDialog with _ | p
      · rfl
      · simp only [save_file, hd] at h
        rcases hw : w.writeFile p ct with k | u <;> simp [hw] at h
    · intro h
      simp [save_file, h]
  · intro q h
    rcases hd : w.saveDialog with _ | p
    · simp [save_file, hd] at h
    · simp only [save_file, hd] at h
      rcases hw : w.writeFile p ct with k | u <;> simp [hw] at h
      subst h
      rfl

/-- C4 witness: in a concrete world whose save dialog is dismissed,
`save_file` with no known path returns `DialogClosed`. -/
theorem save_file_dialog_spec_witness :
    save_file wDismiss none "hello" = Except.error Error.DialogClosed :=
  (save_file_dialog_spec wDismiss "hello").2.2.1.mpr rfl

/-- C5: a successful `FileOpened(Ok((p, str)))` sets the path to `Some p` and
the buffer text to `str`; a failed `FileOpened(Err e)` sets the last error to
`e`. -/
theorem file_opened_merge (s : Editor) (p : Path) (str : String) (e : Error) :
    (Editor.update s (Message.FileOpened (Except.ok (p, str)))).1.path = some p ∧
    (Editor.update s (Message.FileOpened (Except.ok (p, str)))).1.content.text = str ∧
    (Editor.update s (Message.FileOpened (Except.error e))).1.error = some e :=
  ⟨rfl, rfl, rfl⟩

/-- C6: a successful `FileSaved(Ok p)` sets the path to `Some p`; a failed
`FileSaved(Err e)` sets the last error to `e`. -/
theorem file_saved_merge (s : Editor) (p : Path) (e : Error) :
    (Editor.update s (Message.FileSaved (Except.ok p))).1.path = some p ∧
    (Editor.update s (Message.FileSaved (Except.error e))).1.error = some e :=
  ⟨rfl, rfl⟩

/-- C7: the `Edit(delta)` transition applies the delta to the buffer, clears
the last error, and leaves the current path unchanged. -/
theorem edit_applies_delta (s : Editor) (a : Action) :
    (Editor.update s (Message.Edit a)).1.content = Content.perform s.content a ∧
    (Editor.update s (Message.Edit a)).1.error = none ∧
    (Editor.update s (Message.Edit a)).1.path = s.path :=
  ⟨rfl, rfl, rfl⟩

/-- C8: each `update` step returns at most one pending async operation (the
codomain is an `Option`): `New`, `Edit` and the two async-result messages
launch none, while `Open` launches exactly the pick-file-and-read operation
and `Save` exactly the save-dialog-if-no-path-and-write operation on the
current path and buffer text. -/
theorem update_pending_ops (s : Editor) :
    (Editor.update s Message.New).2 = none ∧
    (∀ a, (Editor.update s (Message.Edit a)).2 = none) ∧
    (∀ r, (Editor.update s (Message.FileOpened r)).2 = none) ∧
    (∀ r, (Editor.update s (Message.FileSaved r)).2 = none) ∧
    (Editor.update s Message.Open).2 = some PendingOp.browseOp ∧
    (Editor.update s Message.Save).2 = some (PendingOp.saveOp s.path s.content.text) := by
  refine ⟨rfl, fun a => rfl, ?_, ?_, rfl, rfl⟩
  · intro r
    rcases r with e | pc
    · rfl
    · rcases pc with ⟨p, c⟩
      rfl
  · intro r
    rcases r with e | p <;> rfl

/-- C9: a recorded error survives successful async results — both
`FileOpened(Ok ..)` and `FileSaved(Ok ..)` keep it — and the only message
whose transition can leave the error field `None` when it was `Some` is an
`Edit`. -/
theorem error_frame (s : Editor) (e : Error) (h : s.error = some e) :
    (∀ p str, (Editor.update s (Message.FileOpened (Except.ok (p, str)))).1.error = some e) ∧
    (∀ p, (Editor.update s (Message.FileSaved (Except.ok p))).1.error = some e) ∧
    (∀ m, (Editor.update s m).1.error = none → ∃ a, m = Message.Edit a) := by
  refine ⟨fun p str => h, fun p => h, ?_⟩
  intro m hm
  cases m with
  | New => rw [show (Editor.update s Message.New).1.error = s.error from rfl, h] at hm; cases hm
  | Edit a => exact ⟨a, rfl⟩
  | Open => rw [show (Editor.update s Message.Open).1.error = s.error from rfl, h] at hm; cases hm
  | Save => rw [show (Editor.update s Message.Save).1.error = s.error from rfl, h] at hm; cases hm
  | FileOpened r =>
    rcases r with e' | pc
    · cases hm
    · rcases pc with ⟨p, c⟩
      rw [show (Editor.update s (Message.FileOpened (Except.ok (p, c)))).1.error = s.error from rfl,
        h] at hm
      cases hm
  | FileSaved r =>
    rcases r with e' | p
    · cases hm
    · rw [show (Editor.update s (Message.FileSaved (Except.ok p))).1.error = s.error from rfl,
        h] at hm
      cases hm

/-- C9 witness: a concrete state carrying a `DialogClosed` error still
carries it after a successful `FileOpened` result. -/
theorem error_frame_witness :
    sDlgErr.error = some Error.DialogClosed ∧
    (Editor.update sDlgErr (Message.FileOpened (Except.ok ("/tmp/b", "text")))).1.error
      = some Error.DialogClosed :=
  ⟨rfl, (error_frame sDlgErr Error.DialogClosed rfl).1 "/tmp/b" "text"⟩

/-- C10: for every compile-time source text and manifest directory,
`Editor::new` yields a state with no path, no error, and a buffer pre-filled
with the program's own source, together with exactly one startup load of
`default_file()` (the crate's `src/main.rs`), whose result is delivered as an
ordinary `FileOpened` message. -/
theorem editor_new_spec (src dir : String) :
    (Editor.new src dir).1.path = none ∧
    (Editor.new src dir).1.error = none ∧
    (Editor.new src dir).1.content = Content.with_text src ∧
    (Editor.new src dir).2 = some (PendingOp.loadOp (default_file dir)) ∧
    (∀ w, PendingOp.run w (PendingOp.loadOp (default_file dir))
      = Message.FileOpened (load_file w (default_file dir))) :=
  ⟨rfl, rfl, rfl, rfl, fun _ => rfl⟩

end Nixary
